import Mathlib

/-!
Shallow embedding of the payment / member-card subsystem of the
PetMaster-fastapi repository.

Sources embedded here:
- `app/models/payment.py`     : `PaymentStatus`, `PaymentMethod`, `Payment`
- `app/models/member.py`      : `MemberCard`, `CardRechargeRecord`
- `app/utils/alipay.py`       : `AlipayClient.verify_notify`
- `app/services/payment_service.py`:
    `PaymentService.create_alipay_payment`, `query_payment_status`,
    `handle_alipay_callback`, `_process_payment_success`,
    `_process_member_card_recharge`
- `app/routers/payments.py`   : `create_alipay_payment` (router), `alipay_notify`
- `app/routers/member_cards.py`:
    `recharge_member_card`, `create_card_recharge_payment`,
    `card_recharge_payment_notify`
- `app/schemas/member.py`     : `CardRechargeRequest` (pydantic `gt=0` bound)

The database session is modelled as an explicit `DB` state holding the three
tables the subsystem touches; every `db.commit()` in the source corresponds
either to a returned state or to an element of an explicit commit trace
(`List DB`) when a claim depends on the transaction boundaries.  Monetary
amounts (`DECIMAL(10,2)`, exact decimals) are modelled as `Int`, counting
exact hundredths of the currency unit: `DECIMAL(10,2)` arithmetic under
addition, equality and order is isomorphic to integer arithmetic on cents,
and integers keep every definition kernel-computable.  Timestamps
(`datetime.now()`) are passed in as an abstract tick (`Nat`).  The external
alipay SDK is modelled by its observable interface: an initialization flag,
the sandbox flag, and an oracle for the SDK's RSA signature check.
-/

/-- The `PaymentStatus` string enum of `app/models/payment.py`. -/
inductive PaymentStatus where
  | pending
  | paid
  | failed
  | cancelled
  | refunded
deriving DecidableEq, Repr

/-- The `PaymentMethod` string enum of `app/models/payment.py`. -/
inductive PaymentMethod where
  | alipay
  | wechat
  | card
  | cash
deriving DecidableEq, Repr

/-- Result of `AlipayClient.create_payment` when it succeeds (the dict with
`pay_url` and `order_string`). -/
structure CreateResult where
  payUrl : String
  orderString : String
deriving DecidableEq, Repr

/-- Result of `AlipayClient.query_payment` when it succeeds. -/
structure QueryResult where
  tradeNo : String
  outTradeNo : String
  tradeStatus : String
  totalAmount : String
deriving DecidableEq, Repr

/-- An inbound alipay asynchronous-notification payload (the `data` dict).
Fields are `Option` because `verify_notify` checks their presence; `sign`
uses `data.get("sign", "")` so absence and the empty string coincide. -/
structure NotifyData where
  tradeNo : Option String
  outTradeNo : Option String
  tradeStatus : Option String
  totalAmount : Option String
  sign : Option String
deriving DecidableEq, Repr

/-- Raw provider blobs stored into the `response_data` / `notify_data` text
columns via `str(...)` in the source; we retain the structured value. -/
inductive RawData where
  | ofCreate (r : CreateResult)
  | ofQuery (q : QueryResult)
  | ofNotify (d : NotifyData)
deriving DecidableEq, Repr

/-- Row of the `payments` table (`app/models/payment.py`). -/
structure Payment where
  id : Nat
  userId : Nat
  outTradeNo : String
  tradeNo : Option String := none
  amount : Int
  status : PaymentStatus := .pending
  method : PaymentMethod
  subject : String := ""
  description : Option String := none
  relatedId : Option Nat := none
  relatedType : Option String := none
  responseData : Option RawData := none
  notifyData : Option RawData := none
  paidAt : Option Nat := none
deriving DecidableEq, Repr

/-- Row of the `member_cards` table (`app/models/member.py`); within the core
only id, user, balance, running totals and status matter. -/
structure MemberCard where
  id : Nat
  userId : Nat
  cardNumber : String := ""
  balance : Int := 0
  totalRecharge : Int := 0
  totalConsumption : Int := 0
  status : String := "active"
deriving DecidableEq, Repr

/-- Row of the `card_recharge_records` table (`app/models/member.py`). -/
structure CardRechargeRecord where
  memberCardId : Nat
  amount : Int
  balanceBefore : Int
  balanceAfter : Int
  paymentMethod : Option String := none
  transactionNo : Option String := none
  operatorId : Option Nat := none
  remark : Option String := none
deriving DecidableEq, Repr

/-- The persisted state the payment subsystem reads and writes: the three
tables, each as a list of rows in insertion order. -/
structure DB where
  payments : List Payment := []
  cards : List MemberCard := []
  records : List CardRechargeRecord := []
deriving DecidableEq, Repr

/-- Lookup `db.query(Payment).filter(Payment.out_trade_no == ref).first()`. -/
def findPaymentByRef (db : DB) (ref : String) : Option Payment :=
  db.payments.find? (fun p => p.outTradeNo == ref)

/-- Lookup `db.query(MemberCard).filter(MemberCard.id == cid).first()`. -/
def findCard (db : DB) (cid : Nat) : Option MemberCard :=
  db.cards.find? (fun c => c.id == cid)

/-- Committing a mutated ORM `Payment` instance: the row with the same
primary key is replaced. -/
def setPayment (db : DB) (p : Payment) : DB :=
  { db with payments := db.payments.map (fun q => if q.id == p.id then p else q) }

/-- Committing a mutated ORM `MemberCard` instance. -/
def setCard (db : DB) (c : MemberCard) : DB :=
  { db with cards := db.cards.map (fun x => if x.id == c.id then c else x) }

/-- Insertion `db.add(new_record)` of a recharge record row. -/
def addRecord (db : DB) (r : CardRechargeRecord) : DB :=
  { db with records := db.records ++ [r] }

/-- Insertion `db.add(new_payment)` of a fresh payment row. -/
def addPayment (db : DB) (p : Payment) : DB :=
  { db with payments := db.payments ++ [p] }

/-- Observable state of the `AlipayClient` singleton (`app/utils/alipay.py`):
whether `_initialize_client` succeeded, the `ALIPAY_USE_SANDBOX` setting, and
the SDK's `self.client.verify(data, sign)` signature check as an oracle. -/
structure AlipayConfig where
  client_initialized : Bool
  useSandbox : Bool
  sdkVerify : NotifyData → Bool

/-- Model of `AlipayClient.verify_notify` (`app/utils/alipay.py` lines 343-387):
checks the presence of `trade_no`, `out_trade_no`, `trade_status`,
`total_amount`, rejects an absent/empty `sign`, and then either delegates to
the SDK signature check or — when the client is not initialized — accepts in
sandbox mode and rejects otherwise. -/
def verify_notify (cfg : AlipayConfig) (d : NotifyData) : Bool :=
  if d.tradeNo.isNone then false
  else if d.outTradeNo.isNone then false
  else if d.tradeStatus.isNone then false
  else if d.totalAmount.isNone then false
  else if d.sign.getD "" == "" then false
  else if !cfg.client_initialized then
    (if cfg.useSandbox then true else false)
  else cfg.sdkVerify d

/-- The `{"code": ..., "message": ...}` dict the webhook handlers return. -/
structure CbResult where
  code : String
  message : String
deriving DecidableEq, Repr

/-- Outcome of a handler that may commit several times: the sequence of
states committed by each `db.commit()`, in order, plus the returned value. -/
structure CbOutcome where
  commits : List DB
  result : CbResult
deriving Repr

/-- The state visible after a handler ran: the last committed state, or the
initial state if it never committed. -/
def CbOutcome.final (o : CbOutcome) (db0 : DB) : DB :=
  o.commits.getLastD db0

/-- Model of `PaymentService._process_member_card_recharge`
(`app/services/payment_service.py` lines 337-395).  Looks up the card named
by `payment.related_id` and credits it with `payment.amount`, appending a
`CardRechargeRecord`, all in one commit; returns `False` without a commit
when `related_id` is falsy or the card does not exist.  It performs no check
on the card's `status`. -/
def processMemberCardRecharge (db : DB) (payment : Payment) : List DB × Bool :=
  match payment.relatedId with
  | none => ([], false)
  | some cardId =>
    if cardId == 0 then ([], false)
    else
      match findCard db cardId with
      | none => ([], false)
      | some card =>
        let balanceBefore := card.balance
        let balanceAfter := balanceBefore + payment.amount
        let card' := { card with
          balance := balanceAfter
          totalRecharge := card.totalRecharge + payment.amount }
        let entry : CardRechargeRecord := {
          memberCardId := cardId
          amount := payment.amount
          balanceBefore := balanceBefore
          balanceAfter := balanceAfter
          paymentMethod := some "alipay"
          transactionNo := payment.tradeNo
          operatorId := none
          remark := some "支付宝在线充值" }
        ([addRecord (setCard db card') entry], true)

/-- Model of `PaymentService._process_payment_success`
(`app/services/payment_service.py` lines 304-335): dispatch on
`related_type`; only `"member_card_recharge"` has a real handler, `"product"`
and unknown tags are no-ops returning `True`. -/
def processPaymentSuccess (db : DB) (payment : Payment) : List DB × Bool :=
  if payment.relatedType == some "member_card_recharge" then
    processMemberCardRecharge db payment
  else if payment.relatedType == some "product" then
    ([], true)
  else
    ([], true)

/-- Model of `PaymentService.handle_alipay_callback`
(`app/services/payment_service.py` lines 237-302).  Verifies the payload,
looks the payment up by `out_trade_no`, returns early when it is already
PAID, and on `TRADE_SUCCESS` commits the PAID transition and then invokes
the side-effect dispatch (which commits separately). -/
def handle_alipay_callback (cfg : AlipayConfig) (db : DB) (d : NotifyData)
    (now : Nat) : CbOutcome :=
  if !verify_notify cfg d then
    ⟨[], ⟨"FAIL", "验证失败"⟩⟩
  else
    match findPaymentByRef db (d.outTradeNo.getD "") with
    | none => ⟨[], ⟨"FAIL", "支付记录不存在"⟩⟩
    | some payment =>
      if payment.status = .paid then
        ⟨[], ⟨"SUCCESS", "已处理"⟩⟩
      else if d.tradeStatus == some "TRADE_SUCCESS" then
        let payment' := { payment with
          status := .paid
          tradeNo := d.tradeNo
          notifyData := some (.ofNotify d)
          paidAt := some now }
        let db1 := setPayment db payment'
        ⟨db1 :: (processPaymentSuccess db1 payment').1, ⟨"SUCCESS", "处理成功"⟩⟩
      else if d.tradeStatus == some "TRADE_CLOSED"
          || d.tradeStatus == some "TRADE_FINISHED" then
        let payment' := { payment with
          status := .cancelled
          notifyData := some (.ofNotify d) }
        ⟨[setPayment db payment'], ⟨"SUCCESS", "处理成功"⟩⟩
      else
        ⟨[], ⟨"SUCCESS", "处理成功"⟩⟩

/-- Model of the `alipay_notify` router handler (`app/routers/payments.py` lines 195-237).
Unlike the service handler it performs no already-PAID check and never
invokes the side-effect dispatch; it mutates the payment according to
`trade_status` and commits once. -/
def alipay_notify (cfg : AlipayConfig) (db : DB) (d : NotifyData)
    (now : Nat) : DB × CbResult :=
  if !verify_notify cfg d then
    (db, ⟨"FAIL", "验证失败"⟩)
  else
    match findPaymentByRef db (d.outTradeNo.getD "") with
    | none => (db, ⟨"FAIL", "支付记录不存在"⟩)
    | some payment =>
      let payment' :=
        if d.tradeStatus == some "TRADE_SUCCESS" then
          { payment with
            status := .paid
            tradeNo := d.tradeNo
            notifyData := some (.ofNotify d)
            paidAt := some now }
        else if d.tradeStatus == some "TRADE_CLOSED"
            || d.tradeStatus == some "TRADE_FINISHED" then
          { payment with
            status := .cancelled
            notifyData := some (.ofNotify d) }
        else payment
      (setPayment db payment', ⟨"SUCCESS", "处理成功"⟩)

/-- Model of the `card_recharge_payment_notify` router handler
(`app/routers/member_cards.py` lines 387-462).  `cardId` is the URL path
parameter; note the credited card is looked up by this path parameter, not
by the payment's `related_id`.  On `TRADE_SUCCESS` the PAID transition, the
balance update and the recharge record are committed together once. -/
def card_recharge_payment_notify (cfg : AlipayConfig) (cardId : Nat)
    (db : DB) (d : NotifyData) (now : Nat) : DB × CbResult :=
  if !verify_notify cfg d then
    (db, ⟨"FAIL", "验证失败"⟩)
  else
    match findPaymentByRef db (d.outTradeNo.getD "") with
    | none => (db, ⟨"FAIL", "支付记录不存在"⟩)
    | some payment =>
      if payment.status = .paid then
        (db, ⟨"SUCCESS", "已处理"⟩)
      else
        match findCard db cardId with
        | none => (db, ⟨"FAIL", "会员卡不存在"⟩)
        | some card =>
          if d.tradeStatus == some "TRADE_SUCCESS" then
            let payment' := { payment with
              status := .paid
              tradeNo := d.tradeNo
              notifyData := some (.ofNotify d)
              paidAt := some now }
            let balanceBefore := card.balance
            let balanceAfter := balanceBefore + payment.amount
            let card' := { card with
              balance := balanceAfter
              totalRecharge := card.totalRecharge + payment.amount }
            let entry : CardRechargeRecord := {
              memberCardId := cardId
              amount := payment.amount
              balanceBefore := balanceBefore
              balanceAfter := balanceAfter
              paymentMethod := some "alipay"
              transactionNo := d.tradeNo
              operatorId := none
              remark := some "支付宝在线充值" }
            (addRecord (setCard (setPayment db payment') card') entry,
             ⟨"SUCCESS", "充值成功"⟩)
          else
            (db, ⟨"SUCCESS", "处理完成"⟩)

/-- Model of `PaymentService.query_payment_status`
(`app/services/payment_service.py` lines 193-235): the poll path.  `qres`
is the result of `AlipayClient.query_payment` (network I/O, passed in as an
oracle).  Only a PENDING payment with sync enabled and an initialized client
triggers the gateway query; on `TRADE_SUCCESS` it commits the PAID
transition and then invokes the side-effect dispatch. -/
def query_payment_status (cfg : AlipayConfig) (db : DB) (ref : String)
    (syncFromAlipay : Bool) (qres : Option QueryResult)
    (now : Nat) : List DB × Option Payment :=
  match findPaymentByRef db ref with
  | none => ([], none)
  | some payment =>
    if payment.status = .pending && syncFromAlipay
        && cfg.client_initialized then
      match qres with
      | some r =>
        if r.tradeStatus == "TRADE_SUCCESS" then
          let payment' := { payment with
            status := .paid
            tradeNo := some r.tradeNo
            responseData := some (.ofQuery r)
            paidAt := some now }
          let db1 := setPayment db payment'
          (db1 :: (processPaymentSuccess db1 payment').1, some payment')
        else ([], some payment)
      | none => ([], some payment)
    else ([], some payment)

/-- The `PaymentResult` class of `app/services/payment_service.py` (lines 24-55). -/
structure PaymentResult where
  success : Bool
  paymentId : Option Nat := none
  outTradeNo : Option String := none
  payUrl : Option String := none
  qrCode : Option String := none
  message : Option String := none
  error : Option String := none
deriving DecidableEq, Repr

/-- Model of `PaymentService.create_alipay_payment`
(`app/services/payment_service.py` lines 82-191).  The generated order
number and fresh row id are passed in (they come from `datetime.now()` and
`uuid4` in the source); `cres` is the gateway `create_payment` result.  The
PENDING intent is committed first; an uninitialized client then yields an
error result with no pay url, leaving the intent PENDING. -/
def create_alipay_payment (cfg : AlipayConfig) (db : DB) (newId : Nat)
    (userId : Nat) (amount : Int) (subject : String)
    (description : Option String) (relatedId : Option Nat)
    (relatedType : Option String) (outTradeNo : String)
    (cres : Option CreateResult) : DB × PaymentResult :=
  let payment : Payment := {
    id := newId
    userId := userId
    outTradeNo := outTradeNo
    amount := amount
    status := .pending
    method := .alipay
    subject := subject
    description := description
    relatedId := relatedId
    relatedType := relatedType }
  let db1 := addPayment db payment
  if !cfg.client_initialized then
    (db1, { success := false, error := some "支付宝客户端未初始化，请检查密钥配置" })
  else
    match cres with
    | some r =>
      let payment' := { payment with responseData := some (.ofCreate r) }
      (setPayment db1 payment',
       { success := true
         paymentId := some newId
         outTradeNo := some outTradeNo
         payUrl := some r.payUrl
         message := some "支付请求已生成，请完成支付" })
    | none =>
      (db1, { success := false, error := some "创建支付请求失败，请稍后重试" })

/-- The `PaymentRequestResponse` schema (`app/schemas/payment.py` lines 62-72). -/
structure PaymentRequestResponse where
  paymentId : Nat
  outTradeNo : String
  amount : Int
  subject : String
  qrCode : Option String := none
  payUrl : Option String := none
  responseStatus : String
  message : String
deriving DecidableEq, Repr

/-- The `PaymentCreate` request schema (`app/schemas/payment.py` lines 28-35).
`amount` is declared as a plain string field with no numeric constraint; no
positivity (or even numeric) validation happens at the schema boundary, so
the model simply carries the (coerced) amount through. -/
structure PaymentCreate where
  amount : Int
  subject : String
  description : Option String := none
  method : PaymentMethod := .alipay
  relatedId : Option Nat := none
  relatedType : Option String := none
deriving DecidableEq, Repr

/-- Model of the `create_alipay_payment` router handler (`app/routers/payments.py` lines
21-108).  It persists the PENDING intent, and when the client is not
initialized returns a success-shaped mock response whose `pay_url` is a
placeholder gateway URL — not an error.  A failed gateway call raises
`AppException`, modelled as `Except.error`. -/
def router_create_alipay_payment (cfg : AlipayConfig) (db : DB)
    (newId : Nat) (userId : Nat) (pin : PaymentCreate) (outTradeNo : String)
    (cres : Option CreateResult) : DB × Except String PaymentRequestResponse :=
  let payment : Payment := {
    id := newId
    userId := userId
    outTradeNo := outTradeNo
    amount := pin.amount
    status := .pending
    method := .alipay
    subject := pin.subject
    description := pin.description
    relatedId := pin.relatedId
    relatedType := pin.relatedType }
  let db1 := addPayment db payment
  if !cfg.client_initialized then
    (db1, .ok {
      paymentId := newId
      outTradeNo := outTradeNo
      amount := pin.amount
      subject := pin.subject
      qrCode := some ""
      payUrl := some ("https://openapi.alipay.com/gateway.do?test_request=" ++ outTradeNo)
      responseStatus := "pending"
      message := "支付请求已生成（模拟模式）" })
  else
    match cres with
    | some r =>
      let payment' := { payment with responseData := some (.ofCreate r) }
      (setPayment db1 payment', .ok {
        paymentId := newId
        outTradeNo := outTradeNo
        amount := pin.amount
        subject := pin.subject
        qrCode := some ""
        payUrl := some r.payUrl
        responseStatus := "pending"
        message := "支付请求已生成，请使用支付宝扫码支付" })
    | none =>
      (db1, .error "创建支付请求失败，请稍后重试")

/-- The `CardRechargeRequest` schema (`app/schemas/member.py` lines 109-113). -/
structure CardRechargeRequest where
  amount : Int
  paymentMethod : Option String := none
  remark : Option String := none
deriving DecidableEq, Repr

/-- The pydantic validation of `CardRechargeRequest`: `amount` is declared
`Field(..., gt=0)`, so FastAPI rejects a non-positive amount before the
handler body runs. -/
def cardRechargeRequestValid (req : CardRechargeRequest) : Bool :=
  decide (0 < req.amount)

/-- Model of the `recharge_member_card` router handler (`app/routers/member_cards.py`
lines 118-161): the admin recharge path.  Schema validation happens at the
framework boundary before the handler body; the handler itself rejects a
missing or non-active card, then mutates the balance and appends the
recharge record in one commit. -/
def recharge_member_card (db : DB) (cardId : Nat) (req : CardRechargeRequest)
    (operatorId : Nat) : DB × Except String CardRechargeRecord :=
  if !cardRechargeRequestValid req then
    (db, .error "422 validation error")
  else
    match findCard db cardId with
    | none => (db, .error "会员卡不存在")
    | some card =>
      if card.status ≠ "active" then
        (db, .error "会员卡状态异常，无法充值")
      else
        let balanceBefore := card.balance
        let balanceAfter := balanceBefore + req.amount
        let card' := { card with
          balance := balanceAfter
          totalRecharge := card.totalRecharge + req.amount }
        let entry : CardRechargeRecord := {
          memberCardId := cardId
          amount := req.amount
          balanceBefore := balanceBefore
          balanceAfter := balanceAfter
          paymentMethod := req.paymentMethod
          operatorId := some operatorId
          remark := req.remark }
        (addRecord (setCard db card') entry, .ok entry)

/-- Response dict of `create_card_recharge_payment`. -/
structure CardPaymentResponse where
  paymentId : Nat
  outTradeNo : String
  payUrl : String
  amount : Int
  message : String
deriving DecidableEq, Repr

/-- Model of the `create_card_recharge_payment` router handler
(`app/routers/member_cards.py` lines 306-384).  After the card/permission/
status guards it persists the PENDING intent (first commit); an
uninitialized client then raises HTTP 500, leaving the intent PENDING with
no pay url.  No constraint on `amount` is checked anywhere. -/
def create_card_recharge_payment (cfg : AlipayConfig) (db : DB)
    (newId : Nat) (cardId : Nat) (amount : Int) (userRole : String)
    (userId : Nat) (outTradeNo : String) (cres : Option CreateResult) :
    DB × Except String CardPaymentResponse :=
  match findCard db cardId with
  | none => (db, .error "会员卡不存在")
  | some card =>
    if userRole == "member" && card.userId != userId then
      (db, .error "无权为此会员卡充值")
    else if card.status ≠ "active" then
      (db, .error "会员卡状态异常，无法充值")
    else
      let payment : Payment := {
        id := newId
        userId := userId
        outTradeNo := outTradeNo
        amount := amount
        status := .pending
        method := .alipay
        subject := "会员卡充值 - " ++ card.cardNumber
        relatedId := some cardId
        relatedType := some "member_card_recharge" }
      let db1 := addPayment db payment
      if !cfg.client_initialized then
        (db1, .error "支付服务暂不可用")
      else
        match cres with
        | some r =>
          let payment' := { payment with responseData := some (.ofCreate r) }
          (setPayment db1 payment', .ok {
            paymentId := newId
            outTradeNo := outTradeNo
            payUrl := r.payUrl
            amount := amount
            message := "支付请求已创建，请扫码支付" })
        | none => (db1, .error "创建支付请求失败")

/-! ### Concurrency model for the dual settlement entry points

The callback path (`handle_alipay_callback`) and the poll path
(`query_payment_status` with sync enabled) each consist, as written, of an
application-level observation of the persisted status (the `if
payment.status == ...` guard evaluated on the row read at the start of the
request) followed by the unconditional transition-plus-credit.  The two
phases are split out below so that two concurrent requests can interleave at
the storage boundary; each phase is taken as atomic, which is *coarser* than
the real commit granularity and therefore only under-approximates the set of
interleavings the code admits. -/

/-- The guard the callback path evaluates before settling: the payload
verifies, the payment exists, and its observed status is not PAID. -/
def callbackProceeds (cfg : AlipayConfig) (db : DB) (d : NotifyData) : Bool :=
  verify_notify cfg d &&
    match findPaymentByRef db (d.outTradeNo.getD "") with
    | some p => p.status != .paid
    | none => false

/-- The callback path's settle phase, as applied to the store it runs
against: the PAID transition commit followed by the side-effect dispatch
commit of `handle_alipay_callback`'s `TRADE_SUCCESS` branch. -/
def callbackSettle (db : DB) (d : NotifyData) (now : Nat) : DB :=
  match findPaymentByRef db (d.outTradeNo.getD "") with
  | none => db
  | some payment =>
    if d.tradeStatus == some "TRADE_SUCCESS" then
      let payment' := { payment with
        status := .paid
        tradeNo := d.tradeNo
        notifyData := some (.ofNotify d)
        paidAt := some now }
      let db1 := setPayment db payment'
      ((processPaymentSuccess db1 payment').1).getLastD db1
    else db

/-- The guard the poll path evaluates before settling: payment present and
PENDING, sync enabled, client initialized, and a gateway query reporting
`TRADE_SUCCESS`. -/
def pollProceeds (cfg : AlipayConfig) (db : DB) (ref : String)
    (syncFromAlipay : Bool) (qres : Option QueryResult) : Bool :=
  match findPaymentByRef db ref with
  | none => false
  | some p =>
    p.status == .pending && syncFromAlipay && cfg.client_initialized &&
      match qres with
      | some r => r.tradeStatus == "TRADE_SUCCESS"
      | none => false

/-- The poll path's settle phase (`query_payment_status`'s success branch):
the PAID transition commit followed by the dispatch commit. -/
def pollSettle (db : DB) (ref : String) (r : QueryResult) (now : Nat) : DB :=
  match findPaymentByRef db ref with
  | none => db
  | some payment =>
    let payment' := { payment with
      status := .paid
      tradeNo := some r.tradeNo
      responseData := some (.ofQuery r)
      paidAt := some now }
    let db1 := setPayment db payment'
    ((processPaymentSuccess db1 payment').1).getLastD db1

/-- One atomic event of the two-request race: the callback request `a`
observing or settling, or the poll request `b` observing or settling. -/
inductive RaceEv where
  | aObs
  | aAct
  | bObs
  | bAct
deriving DecidableEq, Repr

/-- Shared store plus each request's remembered guard decision. -/
structure RaceState where
  db : DB
  aGo : Bool := false
  bGo : Bool := false
deriving Repr

/-- Interleaved execution step.  An observe event records the guard decision
against the *current* store; an act event performs the settle phase only if
its own earlier observation allowed it — exactly the check-then-act
structure of the source, which re-reads rows at settle time but does not
re-validate the status guard inside the settling transaction. -/
def raceStep (cfg : AlipayConfig) (d : NotifyData) (nowA : Nat) (ref : String)
    (syncFromAlipay : Bool) (r : QueryResult) (nowB : Nat)
    (s : RaceState) : RaceEv → RaceState
  | .aObs => { s with aGo := callbackProceeds cfg s.db d }
  | .aAct => if s.aGo then { s with db := callbackSettle s.db d nowA } else s
  | .bObs => { s with bGo := pollProceeds cfg s.db ref syncFromAlipay (some r) }
  | .bAct => if s.bGo then { s with db := pollSettle s.db ref r nowB } else s

/-- Run a schedule (a sequence of race events) from an initial store. -/
def runRace (cfg : AlipayConfig) (d : NotifyData) (nowA : Nat) (ref : String)
    (syncFromAlipay : Bool) (r : QueryResult) (nowB : Nat)
    (evs : List RaceEv) (db0 : DB) : RaceState :=
  evs.foldl (raceStep cfg d nowA ref syncFromAlipay r nowB) { db := db0 }

/-! ### Recharge operation sequences

All the code paths that append a `CardRechargeRecord`, packaged as one step
type so ledger invariants can be stated over arbitrary operation
sequences. -/

/-- One invocation of a recharge path: the admin endpoint, the service-side
settlement dispatch for a (settled) payment, or the card-recharge webhook. -/
inductive LedgerOp where
  | admin (cardId : Nat) (req : CardRechargeRequest) (operatorId : Nat)
  | dispatch (p : Payment)
  | notify (cfg : AlipayConfig) (cardId : Nat) (d : NotifyData) (now : Nat)

/-- Apply one recharge operation to the store (final committed state). -/
def applyLedgerOp (db : DB) : LedgerOp → DB
  | .admin cardId req operatorId => (recharge_member_card db cardId req operatorId).1
  | .dispatch p => ((processMemberCardRecharge db p).1).getLastD db
  | .notify cfg cardId d now => (card_recharge_payment_notify cfg cardId db d now).1

/-- Apply a whole sequence of recharge operations. -/
def applyLedgerOps (db : DB) (ops : List LedgerOp) : DB :=
  ops.foldl applyLedgerOp db

/-- The ledger history of one card, in creation order. -/
def recordsOf (db : DB) (cid : Nat) : List CardRechargeRecord :=
  db.records.filter (fun r => r.memberCardId == cid)

/-- Sum of the `amount` fields of a ledger history. -/
def amountSum (rs : List CardRechargeRecord) : Int :=
  (rs.map (fun r => r.amount)).sum

/-- The chaining discipline of a ledger history started at balance `b`:
each entry's `balance_before` is the running balance, its `balance_after`
is `balance_before + amount`, and the next entry continues from there. -/
def ledgerChain (b : Int) : List CardRechargeRecord → Prop
  | [] => True
  | r :: rs =>
    r.balanceBefore = b ∧ r.balanceAfter = b + r.amount ∧
      ledgerChain r.balanceAfter rs

instance : ∀ (b : Int) (rs : List CardRechargeRecord), Decidable (ledgerChain b rs)
  | _, [] => .isTrue trivial
  | b, r :: rs =>
    have : Decidable (ledgerChain r.balanceAfter rs) :=
      instDecidableLedgerChain r.balanceAfter rs
    inferInstanceAs (Decidable (r.balanceBefore = b ∧ r.balanceAfter = b + r.amount ∧
      ledgerChain r.balanceAfter rs))

/-- The ledger invariant of the whole store: card ids are unique, every
recharge record satisfies the exact arithmetic `balance_after =
balance_before + amount`, and every card's history chains from 0 with the
card's balance equal to the sum of its history's amounts. -/
def ledgerInv (db : DB) : Prop :=
  (db.cards.map (fun c => c.id)).Nodup ∧
  (∀ r ∈ db.records, r.balanceAfter = r.balanceBefore + r.amount) ∧
  (∀ c ∈ db.cards, ledgerChain 0 (recordsOf db c.id) ∧
    c.balance = amountSum (recordsOf db c.id))

instance (db : DB) : Decidable (ledgerInv db) := by
  unfold ledgerInv
  infer_instance

instance {e a : Type} [DecidableEq e] [DecidableEq a] :
    DecidableEq (Except e a) := fun x y =>
  match x, y with
  | .ok u, .ok v =>
    if h : u = v then .isTrue (by rw [h])
    else .isFalse (fun hc => h (Except.ok.inj hc))
  | .error u, .error v =>
    if h : u = v then .isTrue (by rw [h])
    else .isFalse (fun hc => h (Except.error.inj hc))
  | .ok _, .error _ => .isFalse (fun hc => Except.noConfusion hc)
  | .error _, .ok _ => .isFalse (fun hc => Except.noConfusion hc)

/-- Positivity of the amount an operation itself carries: the admin request
amount and the dispatch argument's amount; the webhook op's credited amount
comes from the payment row it looks up, so it is constrained through the
store, not through the op. -/
def opAmountPositive : LedgerOp → Prop
  | .admin _ req _ => 0 < req.amount
  | .dispatch p => 0 < p.amount
  | .notify _ _ _ _ => True

instance (op : LedgerOp) : Decidable (opAmountPositive op) := by
  cases op <;> (unfold opAmountPositive; infer_instance)

/-! ### Concrete fixtures used to exercise the embedding -/

/-- Adapter state with valid credentials: initialized, production mode, SDK
signature check accepting. -/
def cfgReady : AlipayConfig := ⟨true, false, fun _ => true⟩

/-- Adapter state with unusable credentials in sandbox mode; the SDK oracle
rejects every signature (so any acceptance happens without verification). -/
def cfgSandboxDown : AlipayConfig := ⟨false, true, fun _ => false⟩

/-- Adapter state with unusable credentials in production mode. -/
def cfgDown : AlipayConfig := ⟨false, false, fun _ => false⟩

/-- A complete, signed notification payload reporting `TRADE_SUCCESS`. -/
def successNotify (ref : String) : NotifyData :=
  ⟨some "T123", some ref, some "TRADE_SUCCESS", some "100.00", some "SIGN"⟩

/-- A complete, signed notification payload reporting `TRADE_CLOSED`. -/
def closedNotify (ref : String) : NotifyData :=
  ⟨some "T123", some ref, some "TRADE_CLOSED", some "100.00", some "SIGN"⟩

/-- A payment that already settled at tick 5. -/
def paidPayment1 : Payment :=
  { id := 1, userId := 7, outTradeNo := "R1", tradeNo := some "T123",
    amount := 100, status := .paid, method := .alipay, subject := "s",
    paidAt := some 5 }

/-- Store holding only the settled payment `paidPayment1`. -/
def dbPaid : DB := { payments := [paidPayment1] }

/-- A pending wallet-recharge payment for card 3. -/
def pendingPayment2 : Payment :=
  { id := 2, userId := 7, outTradeNo := "R2", amount := 100,
    status := .pending, method := .alipay, subject := "s",
    relatedId := some 3, relatedType := some "member_card_recharge" }

/-- An active card with zero balance and empty history. -/
def card3 : MemberCard := { id := 3, userId := 7, cardNumber := "C3" }

/-- Store with the pending recharge payment and its target card. -/
def dbPending : DB := { payments := [pendingPayment2], cards := [card3] }

/-- A frozen card holding a balance of 20. -/
def frozenCard : MemberCard :=
  { id := 4, userId := 7, cardNumber := "C4", balance := 20,
    status := "frozen" }

/-- A settled recharge payment of 30 targeting the frozen card. -/
def paidPayment5 : Payment :=
  { id := 5, userId := 7, outTradeNo := "R5", tradeNo := some "T5",
    amount := 30, status := .paid, method := .alipay, subject := "s",
    relatedId := some 4, relatedType := some "member_card_recharge" }

/-- Store with the frozen card and its settled recharge payment. -/
def dbFrozen : DB := { payments := [paidPayment5], cards := [frozenCard] }

/-- First of two distinct active cards. -/
def cardA : MemberCard := { id := 1, userId := 7, cardNumber := "A" }

/-- Second of two distinct active cards, owned by a different user. -/
def cardB : MemberCard := { id := 2, userId := 8, cardNumber := "B" }

/-- A pending recharge payment declaring card 1 as its target. -/
def pendingPayment6 : Payment :=
  { id := 6, userId := 7, outTradeNo := "R6", amount := 40,
    status := .pending, method := .alipay, subject := "s",
    relatedId := some 1, relatedType := some "member_card_recharge" }

/-- Store with two cards and the payment targeting card 1. -/
def dbTwoCards : DB := { payments := [pendingPayment6], cards := [cardA, cardB] }

/-- A gateway create result carrying a pay url. -/
def cres1 : CreateResult := ⟨"https://pay.example/alipay", "ORDER"⟩

/-- A gateway query result reporting success for reference R2. -/
def qres2 : QueryResult := ⟨"T123", "R2", "TRADE_SUCCESS", "100.00"⟩

/-- A settled recharge payment of 25 targeting card 3 (used as a dispatch
argument). -/
def paidPayment7 : Payment :=
  { id := 7, userId := 7, outTradeNo := "R7", tradeNo := some "T7",
    amount := 25, status := .paid, method := .alipay, subject := "s",
    relatedId := some 3, relatedType := some "member_card_recharge" }

/-- A mixed sequence of recharge operations: an admin recharge, a webhook
settlement of `pendingPayment2`, and a service-side dispatch. -/
def opsMixed : List LedgerOp :=
  [.admin 3 ⟨50, some "cash", none⟩ 1,
   .notify cfgReady 3 (successNotify "R2") 9,
   .dispatch paidPayment7]

/-- Store holding only card 3 (for payment-creation scenarios). -/
def dbCard3 : DB := { cards := [card3] }

/-! ### Helper lemmas about the store operations -/

theorem payments_dispatch (db : DB) (p : Payment) :
    (((processPaymentSuccess db p).1).getLastD db).payments = db.payments := by
  unfold processPaymentSuccess processMemberCardRecharge
  split
  · split
    · rfl
    · split
      · rfl
      · split
        · rfl
        · rfl
  · split
    · rfl
    · rfl

theorem find?_update_of_nodup {α : Type} (key : α → Nat) (pred : α → Bool)
    (l : List α) (x x' : α)
    (hnodup : (l.map key).Nodup) (hf : l.find? pred = some x)
    (hkey : key x' = key x) (hpred : pred x' = true) :
    (l.map (fun y => if key y == key x' then x' else y)).find? pred = some x' := by
  induction l with
  | nil => simp at hf
  | cons a l ih =>
    rw [List.map_cons] at hnodup
    obtain ⟨hna, hnl⟩ := List.nodup_cons.mp hnodup
    rw [List.map_cons]
    by_cases hpa : pred a = true
    · rw [List.find?_cons_of_pos _ hpa] at hf
      injection hf with hax
      subst hax
      have hc : (key a == key x') = true := by
        rw [hkey]; exact beq_self_eq_true _
      simp only [hc, if_true]
      exact List.find?_cons_of_pos _ hpred
    · rw [List.find?_cons_of_neg _ hpa] at hf
      have hx : x ∈ l := List.mem_of_find?_eq_some hf
      have hkax : key a ≠ key x := by
        intro h
        exact hna (h ▸ List.mem_map_of_mem key hx)
      have hc : (key a == key x') = false := by
        rw [hkey]
        exact beq_eq_false_iff_ne.mpr hkax
      simp only [hc, Bool.false_eq_true, if_false]
      rw [List.find?_cons_of_neg _ hpa]
      exact ih hnl hf

theorem amountSum_nil : amountSum [] = 0 := rfl

theorem amountSum_cons (r : CardRechargeRecord) (rs : List CardRechargeRecord) :
    amountSum (r :: rs) = r.amount + amountSum rs := by
  simp [amountSum]

theorem amountSum_append (l₁ l₂ : List CardRechargeRecord) :
    amountSum (l₁ ++ l₂) = amountSum l₁ + amountSum l₂ := by
  simp [amountSum]

theorem ledgerChain_snoc (b : Int) (rs : List CardRechargeRecord)
    (r : CardRechargeRecord) (hc : ledgerChain b rs)
    (hb : r.balanceBefore = b + amountSum rs)
    (ha : r.balanceAfter = r.balanceBefore + r.amount) :
    ledgerChain b (rs ++ [r]) := by
  induction rs generalizing b with
  | nil =>
    rw [amountSum_nil, add_zero] at hb
    exact ⟨hb, by rw [ha, hb], trivial⟩
  | cons hd tl ih =>
    obtain ⟨h1, h2, h3⟩ := hc
    have hb' : r.balanceBefore = hd.balanceAfter + amountSum tl := by
      rw [hb, amountSum_cons, h2, add_assoc]
    exact ⟨h1, h2, ih hd.balanceAfter h3 hb'⟩

theorem recordsOf_addRecord (db : DB) (r : CardRechargeRecord) (cid : Nat) :
    recordsOf (addRecord db r) cid =
      recordsOf db cid ++ (if r.memberCardId == cid then [r] else []) := by
  simp only [recordsOf, addRecord, List.filter_append]
  congr 1
  simp [List.filter]
  split <;> simp_all

theorem recordsOf_setCard (db : DB) (c : MemberCard) (cid : Nat) :
    recordsOf (setCard db c) cid = recordsOf db cid := rfl

theorem recordsOf_setPayment (db : DB) (p : Payment) (cid : Nat) :
    recordsOf (setPayment db p) cid = recordsOf db cid := rfl

theorem findCard_setPayment (db : DB) (p : Payment) (cid : Nat) :
    findCard (setPayment db p) cid = findCard db cid := rfl

theorem ledgerInv_setPayment (db : DB) (p : Payment) :
    ledgerInv (setPayment db p) ↔ ledgerInv db := Iff.rfl

theorem setCard_ids (db : DB) (c : MemberCard) :
    (setCard db c).cards.map (fun x => x.id) = db.cards.map (fun x => x.id) := by
  unfold setCard
  simp only [List.map_map]
  apply List.map_congr_left
  intro x _
  simp only [Function.comp_apply]
  split
  · next h => exact (eq_of_beq h).symm
  · rfl

theorem amountSum_singleton (r : CardRechargeRecord) : amountSum [r] = r.amount := by
  simp [amountSum]

/-- The common shape of all three crediting paths: replace the card row with
an updated copy and append a ledger entry whose arithmetic ties to the old
balance.  This preserves the ledger invariant. -/
theorem ledgerInv_credit (db : DB) (cid : Nat) (card cardU : MemberCard)
    (entry : CardRechargeRecord)
    (hinv : ledgerInv db) (hfind : findCard db cid = some card)
    (hUid : cardU.id = card.id)
    (hUbal : cardU.balance = card.balance + entry.amount)
    (heCid : entry.memberCardId = cid)
    (heBefore : entry.balanceBefore = card.balance)
    (heAfter : entry.balanceAfter = entry.balanceBefore + entry.amount) :
    ledgerInv (addRecord (setCard db cardU) entry) := by
  obtain ⟨hnodup, harith, hcards⟩ := hinv
  have hmem : card ∈ db.cards := List.mem_of_find?_eq_some hfind
  have hbeq : (card.id == cid) = true := by
    have h := hfind
    unfold findCard at h
    simpa using List.find?_some h
  have hid : card.id = cid := eq_of_beq hbeq
  refine ⟨?_, ?_, ?_⟩
  · have hcc : (addRecord (setCard db cardU) entry).cards = (setCard db cardU).cards := rfl
    rw [hcc, setCard_ids]
    exact hnodup
  · intro r hr
    have hrr : (addRecord (setCard db cardU) entry).records = db.records ++ [entry] := rfl
    rw [hrr] at hr
    rcases List.mem_append.mp hr with h | h
    · exact harith r h
    · rw [List.mem_singleton.mp h]
      exact heAfter
  · intro c' hc'
    have hc'cards : c' ∈ (setCard db cardU).cards := hc'
    obtain ⟨x, hx, hfx⟩ := List.mem_map.mp hc'cards
    by_cases hxc : (x.id == cardU.id) = true
    · have hc'U : c' = cardU := by rw [← hfx, if_pos hxc]
      subst hc'U
      obtain ⟨hchain, hsum⟩ := hcards card hmem
      have hrecU : recordsOf (addRecord (setCard db c') entry) c'.id =
          recordsOf db cid ++ [entry] := by
        rw [recordsOf_addRecord, recordsOf_setCard, hUid, heCid, hid,
          if_pos (beq_self_eq_true cid)]
      rw [hrecU, ← hid]
      constructor
      · apply ledgerChain_snoc _ _ _ hchain _ heAfter
        rw [heBefore, hsum, zero_add]
      · rw [hUbal, hsum, amountSum_append, amountSum_singleton]
    · have hc'x : c' = x := by rw [← hfx, if_neg hxc]
      subst hc'x
      have hneq : ¬ entry.memberCardId = c'.id := by
        intro h
        apply hxc
        rw [heCid] at h
        rw [hUid, hid, h]
        exact beq_self_eq_true _
      have hrecX : recordsOf (addRecord (setCard db cardU) entry) c'.id =
          recordsOf db c'.id := by
        rw [recordsOf_addRecord, recordsOf_setCard,
          beq_eq_false_iff_ne.mpr hneq]
        simp
      rw [hrecX]
      exact hcards c' hx

theorem ledgerInv_recharge_member_card (db : DB) (cid : Nat)
    (req : CardRechargeRequest) (operatorId : Nat) (hinv : ledgerInv db) :
    ledgerInv (recharge_member_card db cid req operatorId).1 := by
  unfold recharge_member_card
  split
  · exact hinv
  · split
    · exact hinv
    · split
      · exact hinv
      · next card heq _ =>
        exact ledgerInv_credit db cid card _ _ hinv heq rfl rfl rfl rfl rfl

theorem ledgerInv_processMemberCardRecharge (db : DB) (p : Payment)
    (hinv : ledgerInv db) :
    ledgerInv (((processMemberCardRecharge db p).1).getLastD db) := by
  unfold processMemberCardRecharge
  split
  · exact hinv
  · split
    · exact hinv
    · split
      · exact hinv
      · next card heq =>
        exact ledgerInv_credit db _ card _ _ hinv heq rfl rfl rfl rfl rfl

theorem ledgerInv_processPaymentSuccess (db : DB) (p : Payment)
    (hinv : ledgerInv db) :
    ledgerInv (((processPaymentSuccess db p).1).getLastD db) := by
  unfold processPaymentSuccess
  split
  · exact ledgerInv_processMemberCardRecharge db p hinv
  · split
    · exact hinv
    · exact hinv

theorem ledgerInv_card_recharge_payment_notify (cfg : AlipayConfig)
    (cardId : Nat) (db : DB) (d : NotifyData) (now : Nat)
    (hinv : ledgerInv db) :
    ledgerInv (card_recharge_payment_notify cfg cardId db d now).1 := by
  unfold card_recharge_payment_notify
  split
  · exact hinv
  · split
    · exact hinv
    · split
      · exact hinv
      · split
        · exact hinv
        · next card heq =>
          split
          · exact ledgerInv_credit (setPayment db _) cardId card _ _
              ((ledgerInv_setPayment db _).mpr hinv) heq rfl rfl rfl rfl rfl
          · exact hinv

theorem ledgerInv_applyLedgerOp (db : DB) (op : LedgerOp)
    (hinv : ledgerInv db) : ledgerInv (applyLedgerOp db op) := by
  cases op with
  | admin cid req operatorId =>
    exact ledgerInv_recharge_member_card db cid req operatorId hinv
  | dispatch p => exact ledgerInv_processMemberCardRecharge db p hinv
  | notify cfg cid d now =>
    exact ledgerInv_card_recharge_payment_notify cfg cid db d now hinv

theorem ledgerInv_applyLedgerOps (db : DB) (ops : List LedgerOp)
    (hinv : ledgerInv db) : ledgerInv (applyLedgerOps db ops) := by
  induction ops generalizing db with
  | nil => exact hinv
  | cons op ops ih => exact ih _ (ledgerInv_applyLedgerOp db op hinv)

theorem findCard_addRecord (db : DB) (r : CardRechargeRecord) (cid : Nat) :
    findCard (addRecord db r) cid = findCard db cid := rfl

theorem findCard_setCard_self (db : DB) (card cardU : MemberCard) (cid : Nat)
    (hnodup : (db.cards.map (fun c => c.id)).Nodup)
    (hfind : findCard db cid = some card)
    (hUid : cardU.id = card.id) :
    findCard (setCard db cardU) cid = some cardU := by
  have hbeq : (card.id == cid) = true := by
    have h := hfind
    unfold findCard at h
    simpa using List.find?_some h
  unfold findCard setCard
  exact find?_update_of_nodup (fun c => c.id) (fun c => c.id == cid)
    db.cards card cardU hnodup (by simpa [findCard] using hfind) hUid
    (by show (cardU.id == cid) = true; rw [hUid]; exact hbeq)

theorem findPaymentByRef_setPayment_self (db : DB) (ref : String)
    (p pU : Payment)
    (hnodup : (db.payments.map (fun q => q.id)).Nodup)
    (hf : findPaymentByRef db ref = some p)
    (hUid : pU.id = p.id) (hUref : pU.outTradeNo = p.outTradeNo) :
    findPaymentByRef (setPayment db pU) ref = some pU := by
  have hpred : (p.outTradeNo == ref) = true := by
    have h := hf
    unfold findPaymentByRef at h
    simpa using List.find?_some h
  unfold findPaymentByRef setPayment
  exact find?_update_of_nodup (fun q => q.id) (fun q => q.outTradeNo == ref)
    db.payments p pU hnodup (by simpa [findPaymentByRef] using hf) hUid
    (by show (pU.outTradeNo == ref) = true; rw [hUref]; exact hpred)

/-! ### Claim theorems -/

/-- C7: every recharge ledger entry created by any recharge path (admin
recharge, service-side settlement dispatch, or the card-recharge webhook)
satisfies `balance_after = balance_before + amount` exactly; and after every
sequence of recharges each wallet's balance equals the sum of the `amount`
fields of its ledger history, with each entry's `balance_after` equal to the
next entry's `balance_before` (the `ledgerChain` discipline, anchored at the
fresh-wallet balance 0). -/
theorem c7_ledger_arithmetic (db0 : DB) (ops : List LedgerOp)
    (hinv : ledgerInv db0) :
    (∀ r ∈ (applyLedgerOps db0 ops).records,
        r.balanceAfter = r.balanceBefore + r.amount) ∧
    (∀ c ∈ (applyLedgerOps db0 ops).cards,
        ledgerChain 0 (recordsOf (applyLedgerOps db0 ops) c.id) ∧
        c.balance = amountSum (recordsOf (applyLedgerOps db0 ops) c.id)) := by
  obtain ⟨h1, h2, h3⟩ := ledgerInv_applyLedgerOps db0 ops hinv
  exact ⟨h2, h3⟩

/-- C7 witness: the invariant holds of the concrete store `dbPending` (one
fresh card, no history) and is carried through a mixed admin / webhook /
dispatch recharge sequence. -/
theorem c7_ledger_arithmetic_witness :
    ledgerInv dbPending ∧
    (∀ r ∈ (applyLedgerOps dbPending opsMixed).records,
        r.balanceAfter = r.balanceBefore + r.amount) ∧
    (∀ c ∈ (applyLedgerOps dbPending opsMixed).cards,
        ledgerChain 0 (recordsOf (applyLedgerOps dbPending opsMixed) c.id) ∧
        c.balance = amountSum (recordsOf (applyLedgerOps dbPending opsMixed) c.id)) :=
  ⟨by decide, c7_ledger_arithmetic dbPending opsMixed (by decide)⟩

/-- C5: evaluation of the settlement dispatch at the spec's frozen-wallet
scenario.  The code credits the frozen card anyway: the dispatch returns
`True`, appends a ledger entry and raises the balance from 20 to 50, while
the admin recharge endpoint refuses the very same card with the
card-status error (and its docstring states a frozen card cannot be
recharged) — the settlement path omits the status check the claim (and the
admin path) require. -/
theorem c5_frozen_wallet_credited :
    (processMemberCardRecharge dbFrozen paidPayment5).2 = true ∧
    (((processMemberCardRecharge dbFrozen paidPayment5).1).getLastD dbFrozen).records =
      [{ memberCardId := 4, amount := 30, balanceBefore := 20,
         balanceAfter := 50, paymentMethod := some "alipay",
         transactionNo := some "T5", operatorId := none,
         remark := some "支付宝在线充值" : CardRechargeRecord }] ∧
    (findCard (((processMemberCardRecharge dbFrozen paidPayment5).1).getLastD dbFrozen) 4).map
        (fun c => c.balance) = some 50 ∧
    (recharge_member_card dbFrozen 4 ⟨30, none, none⟩ 1).1 = dbFrozen ∧
    (recharge_member_card dbFrozen 4 ⟨30, none, none⟩ 1).2 =
      .error "会员卡状态异常，无法充值" := by
  decide

/-- C6 counterexample: the card-recharge webhook invoked with URL card id 2
for a payment whose `related_id` is 1 credits card 2 (balance 0 → 40) and
records the ledger entry against card 2, while card 1 — the wallet the
intent declares — stays at 0. -/
theorem c6_counterexample :
    (card_recharge_payment_notify cfgReady 2 dbTwoCards (successNotify "R6") 9).1.records.map
        (fun r => r.memberCardId) = [2] ∧
    (findCard (card_recharge_payment_notify cfgReady 2 dbTwoCards (successNotify "R6") 9).1 2).map
        (fun c => c.balance) = some 40 ∧
    (findCard (card_recharge_payment_notify cfgReady 2 dbTwoCards (successNotify "R6") 9).1 1).map
        (fun c => c.balance) = some 0 ∧
    (findPaymentByRef (card_recharge_payment_notify cfgReady 2 dbTwoCards (successNotify "R6") 9).1 "R6").map
        (fun p => p.relatedId) = some (some 1) := by
  decide

/-- C6 (amended): the service-side dispatch
(`_process_payment_success` → `_process_member_card_recharge`) credits
exactly the wallet identified by the intent's `related_id` with the intent's
amount, appends the ledger entry against that wallet, and leaves every other
wallet untouched; the card-recharge webhook, by contrast, credits the card
identified by the request URL's path parameter, which is never checked
against the intent's `related_id`. -/
theorem c6_dispatch_targets_related_card
    (db : DB) (p : Payment) (cid : Nat) (card : MemberCard)
    (cfg : AlipayConfig) (cardId : Nat) (d : NotifyData) (now : Nat)
    (pW : Payment) (cardW : MemberCard)
    (hrel : p.relatedType = some "member_card_recharge")
    (hrid : p.relatedId = some cid)
    (h0 : (cid == 0) = false)
    (hcard : findCard db cid = some card)
    (hnodup : (db.cards.map (fun c => c.id)).Nodup) :
    (((processPaymentSuccess db p).1).getLastD db).records =
      db.records ++ [{ memberCardId := cid, amount := p.amount,
                       balanceBefore := card.balance,
                       balanceAfter := card.balance + p.amount,
                       paymentMethod := some "alipay",
                       transactionNo := p.tradeNo,
                       operatorId := none,
                       remark := some "支付宝在线充值" }] ∧
    (findCard (((processPaymentSuccess db p).1).getLastD db) cid).map
        (fun c => c.balance) = some (card.balance + p.amount) ∧
    (∀ c ∈ db.cards, c.id ≠ cid →
        c ∈ (((processPaymentSuccess db p).1).getLastD db).cards) ∧
    (verify_notify cfg d = true →
      findPaymentByRef db (d.outTradeNo.getD "") = some pW →
      pW.status ≠ .paid →
      findCard db cardId = some cardW →
      d.tradeStatus = some "TRADE_SUCCESS" →
      (card_recharge_payment_notify cfg cardId db d now).1.records =
        db.records ++ [{ memberCardId := cardId, amount := pW.amount,
                         balanceBefore := cardW.balance,
                         balanceAfter := cardW.balance + pW.amount,
                         paymentMethod := some "alipay",
                         transactionNo := d.tradeNo,
                         operatorId := none,
                         remark := some "支付宝在线充值" }]) := by
  have hbeq : (card.id == cid) = true := by
    have h := hcard
    unfold findCard at h
    simpa using List.find?_some h
  refine ⟨?_, ?_, ?_, ?_⟩
  · simp [processPaymentSuccess, processMemberCardRecharge, hrel, hrid, h0,
      hcard, addRecord, setCard]
  · simp only [processPaymentSuccess, processMemberCardRecharge, hrel, hrid,
      h0, hcard, Bool.false_eq_true, if_false, List.getLastD_cons,
      List.getLastD_nil, Option.some.injEq, beq_iff_eq, if_true]
    rw [findCard_addRecord,
      findCard_setCard_self db card _ cid hnodup hcard (by rfl)]
    rfl
  · intro c hc hne
    simp only [processPaymentSuccess, processMemberCardRecharge, hrel, hrid,
      h0, hcard, Bool.false_eq_true, if_false, List.getLastD_cons,
      List.getLastD_nil, Option.some.injEq, beq_iff_eq, if_true]
    have hcb : (c.id == card.id) = false := by
      apply beq_eq_false_iff_ne.mpr
      intro h
      exact hne (h.trans (eq_of_beq hbeq))
    exact List.mem_map.mpr ⟨c, hc, by simp [hcb]⟩
  · intro hv hf hps hcw htr
    simp [card_recharge_payment_notify, hv, hf, hps, hcw, htr, addRecord,
      setCard, setPayment]

/-- C6 witness: applying the dispatch theorem at the two-card store credits
card 1 (the declared target) with the intent's 40. -/
theorem c6_dispatch_targets_related_card_witness :
    findCard dbTwoCards 1 = some cardA ∧
    (findCard (((processPaymentSuccess dbTwoCards pendingPayment6).1).getLastD dbTwoCards) 1).map
        (fun c => c.balance) = some (cardA.balance + pendingPayment6.amount) :=
  ⟨by decide,
   (c6_dispatch_targets_related_card dbTwoCards pendingPayment6 1 cardA
      cfgReady 2 (successNotify "R6") 9 pendingPayment6 cardB
      (by decide) (by decide) (by decide) (by decide) (by decide)).2.1⟩

/-- C1 counterexample: for a payment already PAID at tick 5, a second
successful callback for the same reference delivered through the
`alipay_notify` router webhook is acknowledged SUCCESS but overwrites the
intent's `paid_at` with the current tick 9 — `paid_at` is not unchanged
under every webhook handler. -/
theorem c1_counterexample :
    (alipay_notify cfgReady dbPaid (successNotify "R1") 9).2 =
      ⟨"SUCCESS", "处理成功"⟩ ∧
    (findPaymentByRef dbPaid "R1").map (fun p => p.paidAt) = some (some 5) ∧
    (findPaymentByRef (alipay_notify cfgReady dbPaid (successNotify "R1") 9).1 "R1").map
        (fun p => p.paidAt) = some (some 9) := by
  decide

/-- C1 (amended): for a payment whose intent is already PAID, a duplicate
successful callback is acknowledged SUCCESS by every webhook handler without
creating a ledger entry or touching any wallet; the service handler
(`handle_alipay_callback`) and the card-recharge webhook perform no write at
all (so `paid_at` is unchanged there), but the generic `alipay_notify`
router handler re-executes the success update, re-setting `trade_no`,
`notify_data` and `paid_at` (to the current time) on the already-PAID row. -/
theorem c1_idempotent_settlement
    (cfg : AlipayConfig) (db : DB) (d : NotifyData) (now : Nat)
    (cardId : Nat) (p : Payment)
    (hv : verify_notify cfg d = true)
    (hf : findPaymentByRef db (d.outTradeNo.getD "") = some p)
    (hp : p.status = .paid) :
    (handle_alipay_callback cfg db d now).commits = [] ∧
    (handle_alipay_callback cfg db d now).result = ⟨"SUCCESS", "已处理"⟩ ∧
    (card_recharge_payment_notify cfg cardId db d now).1 = db ∧
    (card_recharge_payment_notify cfg cardId db d now).2 =
      ⟨"SUCCESS", "已处理"⟩ ∧
    (alipay_notify cfg db d now).2 = ⟨"SUCCESS", "处理成功"⟩ ∧
    (alipay_notify cfg db d now).1.records = db.records ∧
    (alipay_notify cfg db d now).1.cards = db.cards ∧
    (d.tradeStatus = some "TRADE_SUCCESS" →
      (alipay_notify cfg db d now).1 =
        setPayment db { p with
                          status := .paid, tradeNo := d.tradeNo,
                          notifyData := some (.ofNotify d),
                          paidAt := some now }) := by
  refine ⟨?_, ?_, ?_, ?_, ?_, ?_, ?_, ?_⟩
  · simp [handle_alipay_callback, hv, hf, hp]
  · simp [handle_alipay_callback, hv, hf, hp]
  · simp [card_recharge_payment_notify, hv, hf, hp]
  · simp [card_recharge_payment_notify, hv, hf, hp]
  · simp [alipay_notify, hv, hf]
  · simp [alipay_notify, hv, hf, setPayment]
  · simp [alipay_notify, hv, hf, setPayment]
  · intro htr
    simp [alipay_notify, hv, hf, htr]

/-- C1 witness: all three handlers acknowledge the duplicate callback on the
concrete already-settled store. -/
theorem c1_idempotent_settlement_witness :
    (verify_notify cfgReady (successNotify "R1") = true ∧
     findPaymentByRef dbPaid ((successNotify "R1").outTradeNo.getD "") =
       some paidPayment1 ∧
     paidPayment1.status = .paid) ∧
    (handle_alipay_callback cfgReady dbPaid (successNotify "R1") 9).commits = [] ∧
    (handle_alipay_callback cfgReady dbPaid (successNotify "R1") 9).result =
      ⟨"SUCCESS", "已处理"⟩ :=
  ⟨by decide,
   (c1_idempotent_settlement cfgReady dbPaid (successNotify "R1") 9 0
      paidPayment1 (by decide) (by decide) (by decide)).1,
   (c1_idempotent_settlement cfgReady dbPaid (successNotify "R1") 9 0
      paidPayment1 (by decide) (by decide) (by decide)).2.1⟩

/-- C3 counterexample: a later `TRADE_CLOSED` callback delivered through the
`alipay_notify` router moves an intent that is already PAID to CANCELLED —
a terminal state is not immutable. -/
theorem c3_counterexample :
    (findPaymentByRef dbPaid "R1").map (fun p => p.status) =
      some PaymentStatus.paid ∧
    (findPaymentByRef (alipay_notify cfgReady dbPaid (closedNotify "R1") 9).1 "R1").map
        (fun p => p.status) = some PaymentStatus.cancelled := by
  decide

/-- C3 (amended): terminal-state immutability holds only partially.  A PAID
intent is untouched by `handle_alipay_callback`, by the card-recharge
webhook and by the poll path (which acts only on PENDING rows) — but not by
`alipay_notify`, which can re-write it (see the counterexample).  A
CANCELLED intent is not protected at all: a later `TRADE_SUCCESS` callback
on the service handler moves it to PAID, sets `paid_at`, and re-runs the
side-effect dispatch. -/
theorem c3_terminal_state_guards
    (cfg : AlipayConfig) (db : DB) (d : NotifyData) (now : Nat)
    (sync : Bool) (qres : Option QueryResult) (cardId : Nat) (p : Payment)
    (hf : findPaymentByRef db (d.outTradeNo.getD "") = some p) :
    (p.status = .paid →
      (handle_alipay_callback cfg db d now).commits = [] ∧
      (card_recharge_payment_notify cfg cardId db d now).1 = db) ∧
    (p.status ≠ .pending →
      (query_payment_status cfg db (d.outTradeNo.getD "") sync qres now).1 = []) ∧
    (p.status = .cancelled → verify_notify cfg d = true →
      d.tradeStatus = some "TRADE_SUCCESS" →
      (handle_alipay_callback cfg db d now).commits.head? =
        some (setPayment db { p with
                                status := .paid, tradeNo := d.tradeNo,
                                notifyData := some (.ofNotify d),
                                paidAt := some now })) := by
  refine ⟨?_, ?_, ?_⟩
  · intro hp
    constructor
    · cases hv : verify_notify cfg d
      · simp [handle_alipay_callback, hv]
      · simp [handle_alipay_callback, hv, hf, hp]
    · cases hv : verify_notify cfg d
      · simp [card_recharge_payment_notify, hv]
      · simp [card_recharge_payment_notify, hv, hf, hp]
  · intro hnp
    simp [query_payment_status, hf, hnp]
  · intro hp hv htr
    simp [handle_alipay_callback, hv, hf, hp, htr]

/-- C3 witness: on the concrete settled store the PAID row is untouched by
the guarded handlers, and a cancelled row is flipped back to PAID by a
success callback through the service handler. -/
theorem c3_terminal_state_guards_witness :
    findPaymentByRef dbPaid ((successNotify "R1").outTradeNo.getD "") =
      some paidPayment1 ∧
    (handle_alipay_callback cfgReady dbPaid (successNotify "R1") 9).commits = [] ∧
    (card_recharge_payment_notify cfgReady 0 dbPaid (successNotify "R1") 9).1 =
      dbPaid :=
  ⟨by decide,
   ((c3_terminal_state_guards cfgReady dbPaid (successNotify "R1") 9 true
       none 0 paidPayment1 (by decide)).1 (by decide)).1,
   ((c3_terminal_state_guards cfgReady dbPaid (successNotify "R1") 9 true
       none 0 paidPayment1 (by decide)).1 (by decide)).2⟩

/-- C4 counterexample: a verified success callback for a pending
wallet-recharge intent delivered to the `alipay_notify` router commits the
intent as PAID with `paid_at` set but never invokes the side-effect
dispatch — the committed final state has a PAID intent and an empty ledger. -/
theorem c4_counterexample :
    (alipay_notify cfgReady dbPending (successNotify "R2") 9).1.records = [] ∧
    (findPaymentByRef (alipay_notify cfgReady dbPending (successNotify "R2") 9).1 "R2").map
        (fun p => (p.status, p.paidAt)) = some (PaymentStatus.paid, some 9) := by
  decide

/-- C4 (amended): settlement is not one atomic unit of work.  On a verified
success callback for a wallet-recharge intent, the service handler performs
exactly two commits: the first commits the intent as PAID (provider
reference, raw payload and `paid_at` recorded) while the ledger is still
untouched — a committed intermediate state in which the intent is PAID but
the side-effect has not run — and only the second commit appends the ledger
entry.  The `alipay_notify` router commits the PAID transition and never
invokes the dispatch at all. -/
theorem c4_two_commit_settlement
    (cfg : AlipayConfig) (db : DB) (d : NotifyData) (now : Nat)
    (cid : Nat) (card : MemberCard) (p : Payment)
    (hnodup : (db.payments.map (fun q => q.id)).Nodup)
    (hv : verify_notify cfg d = true)
    (hf : findPaymentByRef db (d.outTradeNo.getD "") = some p)
    (hps : p.status ≠ .paid)
    (htr : d.tradeStatus = some "TRADE_SUCCESS")
    (hrel : p.relatedType = some "member_card_recharge")
    (hrid : p.relatedId = some cid)
    (h0 : (cid == 0) = false)
    (hcard : findCard db cid = some card) :
    (handle_alipay_callback cfg db d now).commits.length = 2 ∧
    ((handle_alipay_callback cfg db d now).commits.head?).map
        (fun s => s.records) = some db.records ∧
    ((handle_alipay_callback cfg db d now).commits.head?).bind
        (fun s => findPaymentByRef s (d.outTradeNo.getD "")) =
      some { p with
               status := .paid, tradeNo := d.tradeNo,
               notifyData := some (.ofNotify d), paidAt := some now } ∧
    ((handle_alipay_callback cfg db d now).commits.getLast?).map
        (fun s => s.records.length) = some (db.records.length + 1) ∧
    (alipay_notify cfg db d now).1.records = db.records := by
  have hcommits : (handle_alipay_callback cfg db d now).commits =
      [setPayment db { p with
                         status := .paid, tradeNo := d.tradeNo,
                         notifyData := some (.ofNotify d),
                         paidAt := some now },
       addRecord
         (setCard
           (setPayment db { p with
                              status := .paid, tradeNo := d.tradeNo,
                              notifyData := some (.ofNotify d),
                              paidAt := some now })
           { card with
               balance := card.balance + p.amount,
               totalRecharge := card.totalRecharge + p.amount })
         { memberCardId := cid, amount := p.amount,
           balanceBefore := card.balance,
           balanceAfter := card.balance + p.amount,
           paymentMethod := some "alipay", transactionNo := d.tradeNo,
           operatorId := none, remark := some "支付宝在线充值" }] := by
    simp [handle_alipay_callback, processPaymentSuccess,
      processMemberCardRecharge, hv, hf, hps, htr, hrel, hrid, h0, hcard,
      findCard_setPayment]
  refine ⟨?_, ?_, ?_, ?_, ?_⟩
  · simp [hcommits]
  · simp [hcommits, setPayment]
  · rw [hcommits]
    exact findPaymentByRef_setPayment_self db _ p _ hnodup hf (by rfl) (by rfl)
  · simp [hcommits, addRecord, setCard, setPayment]
  · simp [alipay_notify, hv, hf, setPayment]

/-- C4 witness: on the concrete pending store the service handler settles in
two commits and the router handler leaves the ledger empty. -/
theorem c4_two_commit_settlement_witness :
    (handle_alipay_callback cfgReady dbPending (successNotify "R2") 9).commits.length = 2 ∧
    (alipay_notify cfgReady dbPending (successNotify "R2") 9).1.records =
      dbPending.records :=
  ⟨(c4_two_commit_settlement cfgReady dbPending (successNotify "R2") 9 3
      card3 pendingPayment2 (by decide) (by decide) (by decide) (by decide)
      (by decide) (by decide) (by decide) (by decide) (by decide)).1,
   (c4_two_commit_settlement cfgReady dbPending (successNotify "R2") 9 3
      card3 pendingPayment2 (by decide) (by decide) (by decide) (by decide)
      (by decide) (by decide) (by decide) (by decide) (by decide)).2.2.2.2⟩

theorem getLast?_getD_cons {α : Type} :
    ∀ (l : List α) (a d : α), (a :: l).getLast?.getD d = l.getLast?.getD a
  | [], _, _ => rfl
  | b :: l, a, d => by
    rw [List.getLast?_cons_cons]
    have h1 := getLast?_getD_cons l b d
    have h2 := getLast?_getD_cons l b a
    rw [h1, h2]

/-- C2 counterexample: from the pending store, the interleaving in which the
callback path and the poll path both observe the status before either
settles (observe A, observe B, settle A, settle B) credits the wallet twice:
two ledger entries and a balance of 200 for a single payment of 100.  The
source has no storage-level compare-and-set; each path's status guard is
evaluated in application code before its own settling writes. -/
theorem c2_counterexample :
    (runRace cfgReady (successNotify "R2") 9 "R2" true qres2 10
        [.aObs, .bObs, .aAct, .bAct] dbPending).db.records.length = 2 ∧
    (findCard (runRace cfgReady (successNotify "R2") 9 "R2" true qres2 10
        [.aObs, .bObs, .aAct, .bAct] dbPending).db 3).map
      (fun c => c.balance) = some 200 := by
  decide

/-- C2 (amended): the PENDING→PAID guard is an application-level
check-then-act, not a compare-and-set committed with the transition.  In
either sequential order the loser observes the already-PAID row at its
observation step and performs nothing, so the transition and wallet credit
execute exactly once — the final store is exactly the single winner's
settlement, and the race model's settle phases coincide with the real
handlers (`handle_alipay_callback` and `query_payment_status`).  Under the
interleaving of the counterexample, however, both guards pass and the
credit executes twice. -/
theorem c2_check_then_act_settlement
    (cfg : AlipayConfig) (d : NotifyData) (nowA nowB : Nat) (ref : String)
    (r : QueryResult) (db0 : DB) (p : Payment)
    (hnodup : (db0.payments.map (fun q => q.id)).Nodup)
    (hv : verify_notify cfg d = true)
    (href : d.outTradeNo.getD "" = ref)
    (htr : d.tradeStatus = some "TRADE_SUCCESS")
    (hf : findPaymentByRef db0 ref = some p)
    (hp : p.status = .pending)
    (hinit : cfg.client_initialized = true)
    (hr : r.tradeStatus = "TRADE_SUCCESS") :
    (runRace cfg d nowA ref true r nowB [.aObs, .aAct, .bObs, .bAct] db0).db =
      callbackSettle db0 d nowA ∧
    (runRace cfg d nowA ref true r nowB [.bObs, .bAct, .aObs, .aAct] db0).db =
      pollSettle db0 ref r nowB ∧
    (handle_alipay_callback cfg db0 d nowA).final db0 =
      callbackSettle db0 d nowA ∧
    ((query_payment_status cfg db0 ref true (some r) nowB).1).getLastD db0 =
      pollSettle db0 ref r nowB := by
  have hA : callbackSettle db0 d nowA =
      ((processPaymentSuccess
          (setPayment db0 { p with
                              status := .paid, tradeNo := d.tradeNo,
                              notifyData := some (.ofNotify d),
                              paidAt := some nowA })
          { p with
              status := .paid, tradeNo := d.tradeNo,
              notifyData := some (.ofNotify d),
              paidAt := some nowA }).1).getLastD
        (setPayment db0 { p with
                            status := .paid, tradeNo := d.tradeNo,
                            notifyData := some (.ofNotify d),
                            paidAt := some nowA }) := by
    simp [callbackSettle, href, hf, htr]
  have hfindA : findPaymentByRef (callbackSettle db0 d nowA) ref =
      some { p with
               status := .paid, tradeNo := d.tradeNo,
               notifyData := some (.ofNotify d), paidAt := some nowA } := by
    have hpay : (callbackSettle db0 d nowA).payments =
        (setPayment db0 { p with
                            status := .paid, tradeNo := d.tradeNo,
                            notifyData := some (.ofNotify d),
                            paidAt := some nowA }).payments := by
      rw [hA]
      exact payments_dispatch _ _
    have hset := findPaymentByRef_setPayment_self db0 ref p
      { p with
          status := .paid, tradeNo := d.tradeNo,
          notifyData := some (.ofNotify d), paidAt := some nowA }
      hnodup hf rfl rfl
    unfold findPaymentByRef at hset ⊢
    rw [hpay]
    exact hset
  have hB : pollSettle db0 ref r nowB =
      ((processPaymentSuccess
          (setPayment db0 { p with
                              status := .paid, tradeNo := some r.tradeNo,
                              responseData := some (.ofQuery r),
                              paidAt := some nowB })
          { p with
              status := .paid, tradeNo := some r.tradeNo,
              responseData := some (.ofQuery r),
              paidAt := some nowB }).1).getLastD
        (setPayment db0 { p with
                            status := .paid, tradeNo := some r.tradeNo,
                            responseData := some (.ofQuery r),
                            paidAt := some nowB }) := by
    simp [pollSettle, hf]
  have hfindB : findPaymentByRef (pollSettle db0 ref r nowB) ref =
      some { p with
               status := .paid, tradeNo := some r.tradeNo,
               responseData := some (.ofQuery r), paidAt := some nowB } := by
    have hpay : (pollSettle db0 ref r nowB).payments =
        (setPayment db0 { p with
                            status := .paid, tradeNo := some r.tradeNo,
                            responseData := some (.ofQuery r),
                            paidAt := some nowB }).payments := by
      rw [hB]
      exact payments_dispatch _ _
    have hset := findPaymentByRef_setPayment_self db0 ref p
      { p with
          status := .paid, tradeNo := some r.tradeNo,
          responseData := some (.ofQuery r), paidAt := some nowB }
      hnodup hf rfl rfl
    unfold findPaymentByRef at hset ⊢
    rw [hpay]
    exact hset
  have hgoA : callbackProceeds cfg db0 d = true := by
    simp [callbackProceeds, hv, href, hf, hp]
  have hgoB : pollProceeds cfg (callbackSettle db0 d nowA) ref true (some r) =
      false := by
    simp [pollProceeds, hfindA]
  have hgoB0 : pollProceeds cfg db0 ref true (some r) = true := by
    simp [pollProceeds, hf, hp, hinit, hr]
  have hgoA1 : callbackProceeds cfg (pollSettle db0 ref r nowB) d = false := by
    simp [callbackProceeds, href, hfindB]
  refine ⟨?_, ?_, ?_, ?_⟩
  · simp [runRace, raceStep, hgoA, hgoB]
  · simp [runRace, raceStep, hgoB0, hgoA1]
  · simp [handle_alipay_callback, callbackSettle, CbOutcome.final, href, hv,
      hf, hp, htr, List.getLastD_cons, getLast?_getD_cons]
  · simp [query_payment_status, pollSettle, hf, hp, hinit, hr,
      List.getLastD_cons, getLast?_getD_cons]

/-- C2 witness: on the concrete pending store the callback-then-poll order
settles exactly once (the final store is the lone callback settlement, with
a single ledger entry). -/
theorem c2_check_then_act_settlement_witness :
    (runRace cfgReady (successNotify "R2") 9 "R2" true qres2 10
        [.aObs, .aAct, .bObs, .bAct] dbPending).db =
      callbackSettle dbPending (successNotify "R2") 9 ∧
    (callbackSettle dbPending (successNotify "R2") 9).records.length = 1 :=
  ⟨(c2_check_then_act_settlement cfgReady (successNotify "R2") 9 10 "R2"
      qres2 dbPending pendingPayment2 (by decide) (by decide) (by decide)
      (by decide) (by decide) (by decide) (by decide) (by decide)).1,
   by decide⟩

/-- C8 counterexample: with the gateway client not initialized, the generic
payments router's create endpoint does not return an error: it answers with
a success-shaped mock response that carries a placeholder gateway pay URL. -/
theorem c8_counterexample :
    (router_create_alipay_payment cfgDown dbCard3 11 7
        ⟨100, "s", none, .alipay, none, none⟩ "R8" none).2 =
      Except.ok { paymentId := 11, outTradeNo := "R8", amount := 100,
                  subject := "s", qrCode := some "",
                  payUrl := some "https://openapi.alipay.com/gateway.do?test_request=R8",
                  responseStatus := "pending",
                  message := "支付请求已生成（模拟模式）" } ∧
    (findPaymentByRef (router_create_alipay_payment cfgDown dbCard3 11 7
        ⟨100, "s", none, .alipay, none, none⟩ "R8" none).1 "R8").map
      (fun q => q.status) = some PaymentStatus.pending := by
  decide

/-- C8 (amended): when the gateway adapter is not initialized, the service
creator and the card-recharge creator behave as the claim says — the intent
is persisted and stays PENDING, an error is returned and no pay URL — but
the generic payments router instead responds with a mock-mode success
response containing a placeholder pay URL (the intent equally persisted
PENDING). -/
theorem c8_gateway_unavailable
    (cfg : AlipayConfig) (db : DB) (newId userId : Nat) (amount : Int)
    (subject : String) (descr : Option String) (relatedId : Option Nat)
    (relatedType : Option String) (ref : String) (cres : Option CreateResult)
    (pin : PaymentCreate) (cardId : Nat) (card : MemberCard)
    (userRole : String) (uid : Nat)
    (hinit : cfg.client_initialized = false) :
    (create_alipay_payment cfg db newId userId amount subject descr
        relatedId relatedType ref cres).2.success = false ∧
    (create_alipay_payment cfg db newId userId amount subject descr
        relatedId relatedType ref cres).2.error.isSome = true ∧
    (create_alipay_payment cfg db newId userId amount subject descr
        relatedId relatedType ref cres).2.payUrl = none ∧
    ((create_alipay_payment cfg db newId userId amount subject descr
        relatedId relatedType ref cres).1.payments.getLast?).map
      (fun q => (q.outTradeNo, q.status)) = some (ref, .pending) ∧
    (findCard db cardId = some card →
      (userRole == "member" && card.userId != uid) = false →
      card.status = "active" →
      (create_card_recharge_payment cfg db newId cardId amount userRole uid
          ref cres).2 = .error "支付服务暂不可用" ∧
      ((create_card_recharge_payment cfg db newId cardId amount userRole uid
          ref cres).1.payments.getLast?).map
        (fun q => (q.outTradeNo, q.status)) = some (ref, .pending)) ∧
    (router_create_alipay_payment cfg db newId userId pin ref cres).2 =
      Except.ok { paymentId := newId, outTradeNo := ref, amount := pin.amount,
                  subject := pin.subject, qrCode := some "",
                  payUrl := some ("https://openapi.alipay.com/gateway.do?test_request=" ++ ref),
                  responseStatus := "pending",
                  message := "支付请求已生成（模拟模式）" } ∧
    ((router_create_alipay_payment cfg db newId userId pin ref cres).1.payments.getLast?).map
      (fun q => q.status) = some .pending := by
  refine ⟨?_, ?_, ?_, ?_, ?_, ?_, ?_⟩
  · simp [create_alipay_payment, hinit]
  · simp [create_alipay_payment, hinit]
  · simp [create_alipay_payment, hinit]
  · simp [create_alipay_payment, hinit, addPayment, List.getLast?_concat]
  · intro hcard hrole hstatus
    constructor
    · simp [create_card_recharge_payment, hcard, hrole, hstatus, hinit]
    · simp [create_card_recharge_payment, hcard, hrole, hstatus, hinit,
        addPayment, List.getLast?_concat]
  · simp [router_create_alipay_payment, hinit]
  · simp [router_create_alipay_payment, hinit, addPayment,
      List.getLast?_concat]

/-- C8 witness: the three creation paths evaluated on the concrete store
with the client uninitialized. -/
theorem c8_gateway_unavailable_witness :
    (create_alipay_payment cfgDown dbCard3 11 7 100 "s" none none none
        "R8" none).2.success = false ∧
    ((router_create_alipay_payment cfgDown dbCard3 11 7
        ⟨100, "s", none, .alipay, none, none⟩ "R8" none).1.payments.getLast?).map
      (fun q => q.status) = some .pending :=
  ⟨(c8_gateway_unavailable cfgDown dbCard3 11 7 100 "s" none none none "R8"
      none ⟨100, "s", none, .alipay, none, none⟩ 3 card3 "member" 7
      (by decide)).1,
   (c8_gateway_unavailable cfgDown dbCard3 11 7 100 "s" none none none "R8"
      none ⟨100, "s", none, .alipay, none, none⟩ 3 card3 "member" 7
      (by decide)).2.2.2.2.2.2⟩

/-- C9 counterexample: with the client uninitialized and sandbox mode on,
`verify_notify` accepts a complete payload although its signature is
invalid — the configured SDK signature check (which never runs on this
path) rejects it.  The claim's "under every adapter configuration" fails. -/
theorem c9_counterexample :
    verify_notify cfgSandboxDown (successNotify "R1") = true ∧
    cfgSandboxDown.sdkVerify (successNotify "R1") = false := by
  decide

/-- C9 (amended): `verify_notify` rejects a payload missing any required
field, or with a missing/empty signature, under every configuration; with
the client initialized it returns exactly the SDK signature verdict; with
the client uninitialized it rejects everything outside sandbox mode but
accepts any complete signed payload in sandbox mode without verification.
Whenever verification fails, each webhook handler returns FAIL and leaves
the store untouched. -/
theorem c9_verification
    (cfg : AlipayConfig) (d : NotifyData) (db : DB) (now : Nat)
    (cardId : Nat) :
    (d.tradeNo = none ∨ d.outTradeNo = none ∨ d.tradeStatus = none ∨
        d.totalAmount = none → verify_notify cfg d = false) ∧
    (d.sign.getD "" = "" → verify_notify cfg d = false) ∧
    (cfg.client_initialized = true → d.tradeNo.isNone = false →
      d.outTradeNo.isNone = false → d.tradeStatus.isNone = false →
      d.totalAmount.isNone = false → (d.sign.getD "" == "") = false →
      verify_notify cfg d = cfg.sdkVerify d) ∧
    (cfg.client_initialized = false → cfg.useSandbox = false →
      verify_notify cfg d = false) ∧
    (cfg.client_initialized = false → cfg.useSandbox = true →
      d.tradeNo.isNone = false → d.outTradeNo.isNone = false →
      d.tradeStatus.isNone = false → d.totalAmount.isNone = false →
      (d.sign.getD "" == "") = false → verify_notify cfg d = true) ∧
    (verify_notify cfg d = false →
      (handle_alipay_callback cfg db d now).commits = [] ∧
      (handle_alipay_callback cfg db d now).result.code = "FAIL" ∧
      (alipay_notify cfg db d now).1 = db ∧
      (alipay_notify cfg db d now).2.code = "FAIL" ∧
      (card_recharge_payment_notify cfg cardId db d now).1 = db ∧
      (card_recharge_payment_notify cfg cardId db d now).2.code = "FAIL") := by
  refine ⟨?_, ?_, ?_, ?_, ?_, ?_⟩
  · rintro (h | h | h | h) <;> simp [verify_notify, h]
  · intro h
    simp [verify_notify, h]
  · intro hi h1 h2 h3 h4 h5
    simp [verify_notify, hi, h1, h2, h3, h4, h5]
  · intro hi hs
    simp [verify_notify, hi, hs]
  · intro hi hs h1 h2 h3 h4 h5
    simp [verify_notify, hi, hs, h1, h2, h3, h4, h5]
  · intro hv
    refine ⟨?_, ?_, ?_, ?_, ?_, ?_⟩
    · simp [handle_alipay_callback, hv]
    · simp [handle_alipay_callback, hv]
    · simp [alipay_notify, hv]
    · simp [alipay_notify, hv]
    · simp [card_recharge_payment_notify, hv]
    · simp [card_recharge_payment_notify, hv]

/-- C9 witness: an initialized client defers to the SDK verdict; an
uninitialized production client rejects; an unsigned payload is rejected
even in sandbox mode. -/
theorem c9_verification_witness :
    verify_notify cfgReady (successNotify "R1") =
      cfgReady.sdkVerify (successNotify "R1") ∧
    verify_notify cfgDown (successNotify "R1") = false ∧
    verify_notify cfgSandboxDown { successNotify "R1" with sign := none } =
      false :=
  ⟨(c9_verification cfgReady (successNotify "R1") dbPaid 9 0).2.2.1
     (by decide) (by decide) (by decide) (by decide) (by decide) (by decide),
   (c9_verification cfgDown (successNotify "R1") dbPaid 9 0).2.2.2.1
     (by decide) (by decide),
   (c9_verification cfgSandboxDown { successNotify "R1" with sign := none }
      dbPaid 9 0).2.1 (by decide)⟩

theorem nonneg_credit_cards (db : DB) (cid : Nat) (card cardU : MemberCard)
    (a : Int)
    (hb : ∀ c ∈ db.cards, 0 ≤ c.balance)
    (hfind : findCard db cid = some card)
    (hUbal : cardU.balance = card.balance + a)
    (ha : 0 < a) :
    ∀ c ∈ (setCard db cardU).cards, 0 ≤ c.balance := by
  intro c hc
  obtain ⟨x, hx, hfx⟩ := List.mem_map.mp hc
  by_cases hxc : (x.id == cardU.id) = true
  · have h1 := hb card (List.mem_of_find?_eq_some hfind)
    rw [← hfx, if_pos hxc, hUbal]
    omega
  · rw [← hfx, if_neg hxc]
    exact hb x hx

theorem pos_setPayment_amount (db : DB) (pU : Payment)
    (hp : ∀ q ∈ db.payments, 0 < q.amount)
    (hU : 0 < pU.amount) :
    ∀ q ∈ (setPayment db pU).payments, 0 < q.amount := by
  intro q hq
  obtain ⟨x, hx, hfx⟩ := List.mem_map.mp hq
  by_cases hxc : (x.id == pU.id) = true
  · rw [← hfx, if_pos hxc]
    exact hU
  · rw [← hfx, if_neg hxc]
    exact hp x hx

theorem nonneg_applyLedgerOp (db : DB) (op : LedgerOp)
    (hb : ∀ c ∈ db.cards, 0 ≤ c.balance)
    (hp : ∀ q ∈ db.payments, 0 < q.amount)
    (hop : opAmountPositive op) :
    (∀ c ∈ (applyLedgerOp db op).cards, 0 ≤ c.balance) ∧
    (∀ q ∈ (applyLedgerOp db op).payments, 0 < q.amount) := by
  cases op with
  | admin cid req operatorId =>
    simp only [applyLedgerOp]
    unfold recharge_member_card
    split
    · exact ⟨hb, hp⟩
    · split
      · exact ⟨hb, hp⟩
      · next card heq =>
        split
        · exact ⟨hb, hp⟩
        · exact ⟨nonneg_credit_cards db cid card _ req.amount hb heq rfl hop, hp⟩
  | dispatch p =>
    simp only [applyLedgerOp]
    unfold processMemberCardRecharge
    split
    · exact ⟨hb, hp⟩
    · split
      · exact ⟨hb, hp⟩
      · split
        · exact ⟨hb, hp⟩
        · next card heq =>
          exact ⟨nonneg_credit_cards db _ card _ p.amount hb heq rfl hop, hp⟩
  | notify cfg cid d now =>
    simp only [applyLedgerOp]
    unfold card_recharge_payment_notify
    split
    · exact ⟨hb, hp⟩
    · split
      · exact ⟨hb, hp⟩
      · next payment heqp =>
        split
        · exact ⟨hb, hp⟩
        · split
          · exact ⟨hb, hp⟩
          · next card heqc =>
            split
            · have hpos : 0 < payment.amount := by
                apply hp
                have h := heqp
                unfold findPaymentByRef at h
                exact List.mem_of_find?_eq_some h
              exact ⟨nonneg_credit_cards (setPayment db _) cid card _
                  payment.amount hb heqc rfl hpos,
                pos_setPayment_amount db _ hp hpos⟩
            · exact ⟨hb, hp⟩

theorem nonneg_applyLedgerOps (db0 : DB) (ops : List LedgerOp)
    (hb : ∀ c ∈ db0.cards, 0 ≤ c.balance)
    (hp : ∀ q ∈ db0.payments, 0 < q.amount)
    (hops : ∀ op ∈ ops, opAmountPositive op) :
    ∀ c ∈ (applyLedgerOps db0 ops).cards, 0 ≤ c.balance := by
  induction ops generalizing db0 with
  | nil => exact hb
  | cons op ops ih =>
    have h := nonneg_applyLedgerOp db0 op hb hp
      (hops op (List.mem_cons_self op ops))
    exact ih (applyLedgerOp db0 op) h.1 h.2
      (fun o ho => hops o (List.mem_cons_of_mem op ho))

/-- C10 counterexample: the card-recharge creation endpoint accepts the
non-positive amount -5 with no validation: it persists the intent (status
PENDING, amount -5) and answers with the success payload — the amount is
not rejected before the storage write. -/
theorem c10_counterexample :
    (create_card_recharge_payment cfgReady dbCard3 11 3 (-5) "member" 7
        "R10" (some cres1)).2 =
      Except.ok { paymentId := 11, outTradeNo := "R10",
                  payUrl := cres1.payUrl, amount := -5,
                  message := "支付请求已创建，请扫码支付" } ∧
    (findPaymentByRef (create_card_recharge_payment cfgReady dbCard3 11 3
        (-5) "member" 7 "R10" (some cres1)).1 "R10").map
      (fun q => (q.amount, q.status)) =
      some ((-5 : Int), PaymentStatus.pending) := by
  decide

/-- C10 (amended): only the admin recharge endpoint validates positivity —
its request schema enforces `amount > 0`, so a non-positive admin recharge
is rejected before any storage write.  The payment-creation endpoints
perform no amount validation at all and persist a PENDING intent with
whatever amount was passed (including non-positive ones).  Wallet balance
stays non-negative only under the assumption that every amount actually
applied is positive: balances start ≥ 0, all persisted payment amounts are
positive, and each dispatch argument is positive. -/
theorem c10_amount_validation
    (req : CardRechargeRequest) (db : DB) (cardId operatorId : Nat)
    (cfg : AlipayConfig) (newId : Nat) (amount : Int) (userRole : String)
    (uid : Nat) (ref : String) (card : MemberCard)
    (db0 : DB) (ops : List LedgerOp) :
    (cardRechargeRequestValid req = true ↔ 0 < req.amount) ∧
    (req.amount ≤ 0 →
      recharge_member_card db cardId req operatorId =
        (db, .error "422 validation error")) ∧
    (findCard db cardId = some card →
      (userRole == "member" && card.userId != uid) = false →
      card.status = "active" → cfg.client_initialized = false →
      ((create_card_recharge_payment cfg db newId cardId amount userRole uid
          ref none).1.payments.getLast?).map
        (fun q => (q.amount, q.status)) = some (amount, .pending)) ∧
    ((∀ c ∈ db0.cards, 0 ≤ c.balance) →
      (∀ q ∈ db0.payments, 0 < q.amount) →
      (∀ op ∈ ops, opAmountPositive op) →
      ∀ c ∈ (applyLedgerOps db0 ops).cards, 0 ≤ c.balance) := by
  refine ⟨?_, ?_, ?_, ?_⟩
  · simp [cardRechargeRequestValid]
  · intro hle
    have hval : cardRechargeRequestValid req = false := by
      simp only [cardRechargeRequestValid, decide_eq_false_iff_not]
      omega
    simp [recharge_member_card, hval]
  · intro hcard hrole hstatus hinit
    simp [create_card_recharge_payment, hcard, hrole, hstatus, hinit,
      addPayment, List.getLast?_concat]
  · exact fun hb hp hops => nonneg_applyLedgerOps db0 ops hb hp hops

/-- C10 witness: the admin schema rejects -5 before any write, while the
non-negative balance conclusion holds across the concrete mixed recharge
sequence. -/
theorem c10_amount_validation_witness :
    cardRechargeRequestValid ⟨-5, none, none⟩ = false ∧
    recharge_member_card dbCard3 3 ⟨-5, none, none⟩ 1 =
      (dbCard3, .error "422 validation error") ∧
    (∀ c ∈ (applyLedgerOps dbPending opsMixed).cards, 0 ≤ c.balance) :=
  ⟨by decide,
   (c10_amount_validation ⟨-5, none, none⟩ dbCard3 3 1 cfgDown 11 (-5)
      "member" 7 "R10" card3 dbPending opsMixed).2.1 (by decide),
   (c10_amount_validation ⟨-5, none, none⟩ dbCard3 3 1 cfgDown 11 (-5)
      "member" 7 "R10" card3 dbPending opsMixed).2.2.2 (by decide)
     (by decide) (by decide)⟩
